import Mathlib

/-!
Shallow embedding of the Tauri shell bootstrap in `src/src-tauri/src/lib.rs`
(the `run` function and the event handlers it installs).

The host framework (Tauri) owns the windows; the bootstrap only toggles
visibility / focus / minimization / position through fallible host calls.
We model a window as a record of those observable attributes, the process
state as the two windows ("main" and "panel", both obtained by `unwrap` in
`setup`, hence present whenever a handler runs) together with the exit
status and the tray, and each handler as a function from the incoming event
and the current state to the next state plus the list of host calls the
handler attempted, in order.  Host calls that return `Result` in the source
are modelled by a fault assignment `HostFaults`: a failed call leaves the
window unchanged (the source discards the `Result` with `let _ = ...`),
and a failed `is_visible` query is defaulted by `unwrap_or(false)`.
Physical pixel coordinates are modelled as integers.
-/

/-- Observable attributes of one webview window handle. -/
structure WindowState where
  visible : Bool
  focused : Bool
  minimized : Bool
  posX : Int
  posY : Int
  destroyed : Bool
  deriving DecidableEq, Repr

/-- Process-wide state: the two declared windows, the exit status
(`some code` once `app.exit(code)` ran) and whether the tray icon is up. -/
structure SysState where
  main : WindowState
  panel : WindowState
  exited : Option Nat
  trayActive : Bool
  deriving DecidableEq, Repr

/-- Which fallible host calls succeed during one handler run.  The source
ignores every such failure (`let _ = ...` / `unwrap_or(false)`). -/
structure HostFaults where
  isVisibleOk : Bool
  hideOk : Bool
  showOk : Bool
  focusOk : Bool
  setPosOk : Bool
  unminimizeOk : Bool
  deriving DecidableEq, Repr

/-- The fault assignment where every host call succeeds. -/
def allOk : HostFaults := ⟨true, true, true, true, true, true⟩

/-- Host `window.hide()`: on success the window becomes hidden (and hence
unfocused); on failure nothing happens. -/
def hideW (ok : Bool) (w : WindowState) : WindowState :=
  if ok then { w with visible := false, focused := false } else w

/-- Host `window.show()`: on success the window becomes visible. -/
def showW (ok : Bool) (w : WindowState) : WindowState :=
  if ok then { w with visible := true } else w

/-- Host `window.set_focus()`: on success the window becomes focused. -/
def setFocusW (ok : Bool) (w : WindowState) : WindowState :=
  if ok then { w with focused := true } else w

/-- Host `window.set_position(Physical(x, y))`. -/
def setPositionW (ok : Bool) (x y : Int) (w : WindowState) : WindowState :=
  if ok then { w with posX := x, posY := y } else w

/-- Host `window.unminimize()`. -/
def unminimizeW (ok : Bool) (w : WindowState) : WindowState :=
  if ok then { w with minimized := false } else w

/-- A host call attempted by a handler (recorded whether or not it
succeeds), labelled with the target window where applicable. -/
inductive HostCall where
  | isVisibleQ : String → HostCall
  | hideC : String → HostCall
  | showC : String → HostCall
  | setFocusC : String → HostCall
  | setPositionC : String → Int → Int → HostCall
  | unminimizeC : String → HostCall
  | preventCloseC : HostCall
  | exitC : Nat → HostCall
  deriving DecidableEq, Repr

/-- Mouse buttons of a tray click (`tauri::tray::MouseButton`). -/
inductive MouseButton where
  | left
  | right
  | middle
  deriving DecidableEq, Repr

/-- Tray icon events (`tauri::tray::TrayIconEvent`); clicks carry the
button and the physical cursor position. -/
inductive TrayIconEvent where
  | click : MouseButton → Int → Int → TrayIconEvent
  | doubleClick : MouseButton → Int → Int → TrayIconEvent
  | enter : TrayIconEvent
  | move : TrayIconEvent
  | leave : TrayIconEvent
  deriving DecidableEq, Repr

/-- The literal `190.0` subtracted from the click x in the source
("Basic positioning" comment), i.e. half the panel width. -/
def half_panel_width : Int := 190

/-- The `on_tray_icon_event` closure: on a left-button click it queries the
panel's visibility with `is_visible().unwrap_or(false)`; if visible it
hides the panel, otherwise it moves the panel to
`(click.x - 190, 0)`, shows it and focuses it.  Every other event falls
through the `if let` pattern and does nothing. -/
def on_tray_icon_event (f : HostFaults) (e : TrayIconEvent) (s : SysState) :
    SysState × List HostCall :=
  match e with
  | .click .left px _py =>
      let visQ := if f.isVisibleOk then s.panel.visible else false
      if visQ then
        ({ s with panel := hideW f.hideOk s.panel },
         [.isVisibleQ "panel", .hideC "panel"])
      else
        let x := px - half_panel_width
        ({ s with panel :=
             setFocusW f.focusOk (showW f.showOk
               (setPositionW f.setPosOk x 0 s.panel)) },
         [.isVisibleQ "panel", .setPositionC "panel" x 0,
          .showC "panel", .setFocusC "panel"])
  | _ => (s, [])

/-- Fold a sequence of tray left-clicks (given as click positions) through
`on_tray_icon_event`, keeping only the state. -/
def trayClicks (f : HostFaults) (ps : List (Int × Int)) (s : SysState) :
    SysState :=
  ps.foldl (fun st p => (on_tray_icon_event f (.click .left p.1 p.2) st).1) s

/-- The `on_menu_event` closure: `"quit"` calls `app.exit(0)`, `"show"`
looks up the main window and calls `show`, `unminimize`, `set_focus` in
that order, any other id does nothing. -/
def on_menu_event (f : HostFaults) (id : String) (s : SysState) :
    SysState × List HostCall :=
  if id = "quit" then
    ({ s with exited := some 0 }, [.exitC 0])
  else if id = "show" then
    ({ s with main :=
         setFocusW f.focusOk (unminimizeW f.unminimizeOk
           (showW f.showOk s.main)) },
     [.showC "main", .unminimizeC "main", .setFocusC "main"])
  else (s, [])

/-- Window events delivered to the `on_window_event` handler installed on
the main window (macOS branch of `setup`). -/
inductive WindowEvent where
  | closeRequested
  | other
  deriving DecidableEq, Repr

/-- The macOS `on_window_event` closure on the main window: a
`CloseRequested` event calls `api.prevent_close()` and hides the main
window; the returned flag records whether `prevent_close` was called. -/
def on_window_event (f : HostFaults) (e : WindowEvent) (s : SysState) :
    SysState × Bool × List HostCall :=
  match e with
  | .closeRequested =>
      ({ s with main := hideW f.hideOk s.main }, true,
       [.preventCloseC, .hideC "main"])
  | .other => (s, false, [])

/-- Host delivery of a close request on the main window: the handler runs
first; the host destroys the window only if the handler did not call
`prevent_close`. -/
def deliverCloseRequest (f : HostFaults) (s : SysState) : SysState :=
  let r := on_window_event f .closeRequested s
  if r.2.1 then r.1
  else { r.1 with main := { r.1.main with destroyed := true } }

/-- The macOS `RunEvent::Reopen` arm of the run-loop callback: look up the
main window and call `show`, `unminimize`, `set_focus` in that order. -/
def on_run_event_reopen (f : HostFaults) (s : SysState) :
    SysState × List HostCall :=
  ({ s with main :=
       setFocusW f.focusOk (unminimizeW f.unminimizeOk
         (showW f.showOk s.main)) },
   [.showC "main", .unminimizeC "main", .setFocusC "main"])

/-- A decoded RGBA image (`tauri::image::Image` / the output of
`image::load_from_memory(...).into_rgba8()`); contents are opaque here. -/
structure Image where
  width : Nat
  height : Nat
  rgba : List Nat
  deriving DecidableEq, Repr

/-- The `tray_icon` let-binding in `setup`: `Some` of the decoded bundled
image when `image::load_from_memory` returns `Ok`, `None` on any decode
failure.  The external decoder is modelled by its result `decoded`. -/
def tray_icon (decoded : Option Image) : Option Image :=
  match decoded with
  | some img => some ⟨img.width, img.height, img.rgba⟩
  | none => none

/-- The icon handed to `TrayIconBuilder::new().icon(...)`:
`tray_icon.unwrap_or_else(|| app.default_window_icon().unwrap().clone())`.
`none` means the `unwrap` on a missing default window icon panicked. -/
def resolveTrayIcon (decoded : Option Image) (defaultWindowIcon : Option Image) :
    Option Image :=
  match tray_icon decoded with
  | some i => some i
  | none => defaultWindowIcon

/-- Outcomes of the host calls made during `setup`, in source order.  Each
`Bool` is whether the corresponding fallible call succeeds; the two
`Option Image` fields are the bundled-icon decode result and the host's
default window icon. -/
structure SetupEnv where
  mainPresent : Bool
  panelPresent : Bool
  vibrancyMainOk : Bool
  vibrancyPanelOk : Bool
  decodedIcon : Option Image
  defaultWindowIcon : Option Image
  menuQuitOk : Bool
  menuShowOk : Bool
  menuBuildOk : Bool
  trayBuildOk : Bool
  pluginStoreOk : Bool
  pluginFsOk : Bool
  pluginDialogOk : Bool
  pluginHttpOk : Bool
  pluginShellOk : Bool
  pluginNotifyOk : Bool
  deriving DecidableEq, Repr

/-- Result of running `setup`: `fatal msg regs` when a `unwrap`/`expect`
panicked or a `?` propagated an error (the outer
`.expect("error while building tauri application")` makes both abort the
process), with `regs` the plugins registered before the abort; `ok icon
regs` when `setup` returned `Ok(())`, with the tray icon actually used and
the registered plugins. -/
inductive SetupOutcome where
  | fatal : String → List String → SetupOutcome
  | ok : Image → List String → SetupOutcome
  deriving DecidableEq, Repr

/-- Whether a `SetupOutcome` is an aborted bootstrap. -/
def SetupOutcome.isFatal : SetupOutcome → Bool
  | .fatal _ _ => true
  | .ok _ _ => false

/-- The six capability plugins registered at the end of `setup`, in source
order. -/
def allPlugins : List String :=
  ["store", "fs", "dialog", "http", "shell", "notification"]

/-- The six sequential `app.handle().plugin(...)?` registrations at the
end of `setup`, in source order; the first failing registration aborts
with the plugins already registered recorded. -/
def registerPlugins (env : SetupEnv) (icon : Image) : SetupOutcome :=
  if !env.pluginStoreOk then .fatal "plugin store" []
  else if !env.pluginFsOk then .fatal "plugin fs" ["store"]
  else if !env.pluginDialogOk then .fatal "plugin dialog" ["store", "fs"]
  else if !env.pluginHttpOk then
    .fatal "plugin http" ["store", "fs", "dialog"]
  else if !env.pluginShellOk then
    .fatal "plugin shell" ["store", "fs", "dialog", "http"]
  else if !env.pluginNotifyOk then
    .fatal "plugin notification" ["store", "fs", "dialog", "http", "shell"]
  else .ok icon allPlugins

/-- The `MenuItem::with_id` / `Menu::with_items` / `TrayIconBuilder ...
.build(app)?` sequence of `setup` (each with `?`), followed by the plugin
registrations. -/
def buildTrayThenPlugins (env : SetupEnv) (icon : Image) : SetupOutcome :=
  if !env.menuQuitOk then .fatal "menu item quit" []
  else if !env.menuShowOk then .fatal "menu item show" []
  else if !env.menuBuildOk then .fatal "menu build" []
  else if !env.trayBuildOk then .fatal "tray build" []
  else registerPlugins env icon

/-- The `setup` closure (macOS revision): unwrap the two windows, apply
vibrancy (two `expect`s), resolve the tray icon, build the menu and the
tray, then register the six plugins sequentially with `?`. -/
def setup (env : SetupEnv) : SetupOutcome :=
  if !env.mainPresent then .fatal "main window not found" []
  else if !env.panelPresent then .fatal "panel window not found" []
  else if !env.vibrancyMainOk then .fatal "apply_vibrancy main" []
  else if !env.vibrancyPanelOk then .fatal "apply_vibrancy panel" []
  else
    match resolveTrayIcon env.decodedIcon env.defaultWindowIcon with
    | none => .fatal "default window icon missing" []
    | some icon => buildTrayThenPlugins env icon

/- Concrete states used by the witnesses. -/

/-- A hidden, unfocused, unminimized window at the origin. -/
def w0 : WindowState := ⟨false, false, false, 0, 0, false⟩

/-- A visible, focused, minimized window, for exercising prior states. -/
def w1 : WindowState := ⟨true, true, true, 12, 34, false⟩

/-- Initial system state right after a successful bootstrap: both windows
hidden, process running, tray active. -/
def s0 : SysState := ⟨w0, w0, none, true⟩

/-- A system state with both windows visible/minimized, for exercising
arbitrary prior states. -/
def s1 : SysState := ⟨w1, w1, none, true⟩

/-- A fault assignment where every fallible host call fails. -/
def allFail : HostFaults := ⟨false, false, false, false, false, false⟩

/-- A concrete 32x32 image standing for a successfully decoded icon. -/
def img0 : Image := ⟨32, 32, [0, 0, 0, 255]⟩

/-- A fully healthy bootstrap environment: both windows found, vibrancy
applied, the bundled icon decodes, and every registration succeeds. -/
def envAllOk : SetupEnv :=
  ⟨true, true, true, true, some img0, some img0, true, true, true, true,
   true, true, true, true, true, true⟩

/-- Like `envAllOk` but the bundled tray image fails to decode while the
host's default window icon is available. -/
def envDecodeFail : SetupEnv :=
  { envAllOk with decodedIcon := none }

/-- Like `envAllOk` but the "main" window lookup fails. -/
def envNoMain : SetupEnv :=
  { envAllOk with mainPresent := false }

/-- `a` occurs strictly before `b` in the list. -/
def precedesIn (a b : HostCall) : List HostCall → Bool
  | [] => false
  | c :: cs => (decide (c = a) && cs.contains b) || precedesIn a b cs

/-- Whether a tray event is a left-button single click (the only tray
event the handler acts on). -/
def isLeftClick : TrayIconEvent → Bool
  | .click .left _ _ => true
  | _ => false

/- Helper lemmas about the tray toggle. -/

/-- One tray left-click with all host calls succeeding flips the panel's
visibility. -/
theorem tray_left_click_flips (x y : Int) (s : SysState) :
    (on_tray_icon_event allOk (.click .left x y) s).1.panel.visible =
      !s.panel.visible := by
  cases h : s.panel.visible <;>
    simp [on_tray_icon_event, allOk, hideW, showW, setFocusW, setPositionW, h]

theorem trayClicks_nil (f : HostFaults) (s : SysState) :
    trayClicks f [] s = s := rfl

theorem trayClicks_cons (f : HostFaults) (p : Int × Int)
    (ps : List (Int × Int)) (s : SysState) :
    trayClicks f (p :: ps) s =
      trayClicks f ps (on_tray_icon_event f (.click .left p.1 p.2) s).1 := rfl

/-- After any sequence of fault-free tray left-clicks the panel's
visibility is the initial visibility xor the parity of the click count. -/
theorem trayClicks_visible_xor (ps : List (Int × Int)) (s : SysState) :
    (trayClicks allOk ps s).panel.visible =
      (s.panel.visible ^^ decide (ps.length % 2 = 1)) := by
  induction ps generalizing s with
  | nil => simp [trayClicks_nil]
  | cons p ps ih =>
      rw [trayClicks_cons, ih, tray_left_click_flips]
      rcases Nat.mod_two_eq_zero_or_one ps.length with h | h <;>
        cases s.panel.visible <;>
          simp [List.length_cons, Nat.add_mod, h]

/-- Every field of `SetupEnv` that `setup` checks before reaching the
plugin registrations, plus the six plugin results, must be `true` for
`setup` to return `Ok`, and then all six plugins are registered. -/
theorem registerPlugins_ok_inversion (env : SetupEnv) (icon icon' : Image)
    (regs : List String) (h : registerPlugins env icon = .ok icon' regs) :
    env.pluginStoreOk = true ∧ env.pluginFsOk = true ∧
    env.pluginDialogOk = true ∧ env.pluginHttpOk = true ∧
    env.pluginShellOk = true ∧ env.pluginNotifyOk = true ∧
    regs = allPlugins := by
  unfold registerPlugins at h
  repeat' split at h
  all_goals try exact SetupOutcome.noConfusion h
  injection h with hicon hregs
  refine ⟨?_, ?_, ?_, ?_, ?_, ?_, hregs.symm⟩ <;> simp_all

theorem buildTrayThenPlugins_ok_inversion (env : SetupEnv)
    (icon icon' : Image) (regs : List String)
    (h : buildTrayThenPlugins env icon = .ok icon' regs) :
    env.pluginStoreOk = true ∧ env.pluginFsOk = true ∧
    env.pluginDialogOk = true ∧ env.pluginHttpOk = true ∧
    env.pluginShellOk = true ∧ env.pluginNotifyOk = true ∧
    regs = allPlugins := by
  unfold buildTrayThenPlugins at h
  repeat' split at h
  all_goals try exact SetupOutcome.noConfusion h
  exact registerPlugins_ok_inversion env icon icon' regs h

theorem setup_ok_inversion (env : SetupEnv) (icon : Image)
    (regs : List String) (h : setup env = .ok icon regs) :
    env.mainPresent = true ∧ env.panelPresent = true ∧
    env.pluginStoreOk = true ∧ env.pluginFsOk = true ∧
    env.pluginDialogOk = true ∧ env.pluginHttpOk = true ∧
    env.pluginShellOk = true ∧ env.pluginNotifyOk = true ∧
    regs = allPlugins := by
  unfold setup at h
  repeat' split at h
  all_goals try exact SetupOutcome.noConfusion h
  rename_i icon' heq
  obtain ⟨q1, q2, q3, q4, q5, q6, hregs⟩ :=
    buildTrayThenPlugins_ok_inversion env icon' icon regs h
  refine ⟨?_, ?_, q1, q2, q3, q4, q5, q6, hregs⟩ <;> simp_all

/-- C1: starting from a hidden panel, any sequence of tray left-clicks
(with fault-free host calls) leaves the panel visible exactly when the
number of clicks is odd — visibility alternates Hidden, Visible, Hidden, …
and depends only on the click count, never on the click coordinates. -/
theorem C1_tray_clicks_alternate (ps : List (Int × Int)) (s : SysState)
    (h : s.panel.visible = false) :
    (trayClicks allOk ps s).panel.visible = decide (ps.length % 2 = 1) := by
  rw [trayClicks_visible_xor, h]
  simp

theorem C1_tray_clicks_alternate_witness :
    s0.panel.visible = false ∧
      (trayClicks allOk [(5, 7), (300, 2), (0, 0)] s0).panel.visible =
        decide (([(5, 7), (300, 2), (0, 0)] : List (Int × Int)).length % 2 = 1) :=
  ⟨rfl, C1_tray_clicks_alternate [(5, 7), (300, 2), (0, 0)] s0 rfl⟩

/-- C2: a tray left-click at `(x, y)` that finds the panel hidden moves the
panel so its origin is `(x - half_panel_width, 0)`; the y-coordinate of
the click is ignored. -/
theorem C2_show_branch_position (x y : Int) (s : SysState)
    (h : s.panel.visible = false) :
    (on_tray_icon_event allOk (.click .left x y) s).1.panel.posX =
        x - half_panel_width ∧
      (on_tray_icon_event allOk (.click .left x y) s).1.panel.posY = 0 := by
  simp [on_tray_icon_event, allOk, setPositionW, showW, setFocusW, h]

theorem C2_show_branch_position_witness :
    s0.panel.visible = false ∧
      ((on_tray_icon_event allOk (.click .left 500 250) s0).1.panel.posX =
          500 - half_panel_width ∧
        (on_tray_icon_event allOk (.click .left 500 250) s0).1.panel.posY = 0) :=
  ⟨rfl, C2_show_branch_position 500 250 s0 rfl⟩

/-- C3 counterexample: from a minimized main window, the "show" handler's
call sequence is `show`, `unminimize`, `set_focus` — the unminimize call
does not precede the show call, so the window is not "un-minimized first,
before being shown". -/
theorem C3_counterexample :
    s1.main.minimized = true ∧
      precedesIn (.unminimizeC "main") (.showC "main")
        (on_menu_event allOk "show" s1).2 = false := by
  constructor
  · rfl
  · decide

/-- C3 (amended): selecting "show" always leaves the main window visible,
focused and not minimized; the handler calls `show` first, then
`unminimize`, then `set_focus`. -/
theorem C3_show_menu_restores (s : SysState) :
    ((on_menu_event allOk "show" s).1.main.visible = true ∧
      (on_menu_event allOk "show" s).1.main.focused = true ∧
      (on_menu_event allOk "show" s).1.main.minimized = false) ∧
    (on_menu_event allOk "show" s).2 =
      [.showC "main", .unminimizeC "main", .setFocusC "main"] := by
  simp [on_menu_event, allOk, showW, unminimizeW, setFocusW]

/-- C4: selecting "quit" exits the process with code 0 from any state; the
handler performs no window operation (in particular it never reaches the
close-interception path, which would prevent-close and hide). -/
theorem C4_quit_exits (f : HostFaults) (s : SysState) :
    (on_menu_event f "quit" s).1.exited = some 0 ∧
      (on_menu_event f "quit" s).1.main = s.main ∧
      (on_menu_event f "quit" s).1.panel = s.panel ∧
      (on_menu_event f "quit" s).2 = [.exitC 0] := by
  simp [on_menu_event]

/-- C5: a close request on the main window is always intercepted
(`prevent_close` is called), so the window is never destroyed; provided
the `hide` call succeeds the main window ends hidden, and the process
keeps running with the tray still active. -/
theorem C5_close_request_hides (f : HostFaults) (s : SysState)
    (h : f.hideOk = true) :
    (on_window_event f .closeRequested s).2.1 = true ∧
      (deliverCloseRequest f s).main.destroyed = s.main.destroyed ∧
      (deliverCloseRequest f s).main.visible = false ∧
      (deliverCloseRequest f s).exited = s.exited ∧
      (deliverCloseRequest f s).trayActive = s.trayActive := by
  simp [on_window_event, deliverCloseRequest, hideW, h]

theorem C5_close_request_hides_witness :
    allOk.hideOk = true ∧
      ((on_window_event allOk .closeRequested s1).2.1 = true ∧
        (deliverCloseRequest allOk s1).main.destroyed = s1.main.destroyed ∧
        (deliverCloseRequest allOk s1).main.visible = false ∧
        (deliverCloseRequest allOk s1).exited = s1.exited ∧
        (deliverCloseRequest allOk s1).trayActive = s1.trayActive) :=
  ⟨rfl, C5_close_request_hides allOk s1 rfl⟩

/-- C6: the Reopen handler leaves the main window visible, focused and not
minimized, whatever the prior state was. -/
theorem C6_reopen_restores (s : SysState) :
    (on_run_event_reopen allOk s).1.main.visible = true ∧
      (on_run_event_reopen allOk s).1.main.focused = true ∧
      (on_run_event_reopen allOk s).1.main.minimized = false := by
  simp [on_run_event_reopen, allOk, showW, unminimizeW, setFocusW]

/-- C7: when the visibility query fails the panel is treated as hidden, so
a left-click attempts the full show branch (`set_position`, `show`,
`set_focus`) whatever other host calls fail; and the calls a tray handler
attempts never depend on which fallible calls fail, only the query's
success enters the branch decision. -/
theorem C7_failed_query_defaults_hidden (f : HostFaults) (x y : Int)
    (s : SysState) (h : f.isVisibleOk = false) :
    ((on_tray_icon_event f (.click .left x y) s).2 =
      [.isVisibleQ "panel", .setPositionC "panel" (x - half_panel_width) 0,
       .showC "panel", .setFocusC "panel"]) ∧
    ∀ g₁ g₂ : HostFaults, ∀ e : TrayIconEvent,
      g₁.isVisibleOk = g₂.isVisibleOk →
        (on_tray_icon_event g₁ e s).2 = (on_tray_icon_event g₂ e s).2 := by
  constructor
  · simp [on_tray_icon_event, h]
  · intro g₁ g₂ e hg
    cases e with
    | click b px py =>
        cases b with
        | left =>
            cases h2 : g₂.isVisibleOk <;> cases hv : s.panel.visible <;>
              simp [on_tray_icon_event, hg, h2, hv]
        | right => rfl
        | middle => rfl
    | doubleClick b px py => rfl
    | enter => rfl
    | move => rfl
    | leave => rfl

theorem C7_failed_query_defaults_hidden_witness :
    allFail.isVisibleOk = false ∧
      (on_tray_icon_event allFail (.click .left 200 5) s1).2 =
        [.isVisibleQ "panel",
         .setPositionC "panel" (200 - half_panel_width) 0,
         .showC "panel", .setFocusC "panel"] :=
  ⟨rfl, (C7_failed_query_defaults_hidden allFail 200 5 s1 rfl).1⟩

/-- C10: tray events other than a left-button single click, and menu
events whose id is neither "quit" nor "show", change nothing: the state
(visibility, focus, minimization, position of both windows, exit status,
tray) is returned untouched and no host call is attempted. -/
theorem C10_other_events_frame (f : HostFaults) (s : SysState) :
    (∀ e : TrayIconEvent, isLeftClick e = false →
        on_tray_icon_event f e s = (s, [])) ∧
    ∀ id : String, id ≠ "quit" → id ≠ "show" →
        on_menu_event f id s = (s, []) := by
  constructor
  · intro e he
    cases e with
    | click b px py => cases b <;> simp_all [on_tray_icon_event, isLeftClick]
    | doubleClick b px py => rfl
    | enter => rfl
    | move => rfl
    | leave => rfl
  · intro id h1 h2
    simp [on_menu_event, h1, h2]

theorem C10_other_events_frame_witness :
    isLeftClick (.click .right 3 4) = false ∧
      on_tray_icon_event allFail (.click .right 3 4) s1 = (s1, []) ∧
      on_menu_event allFail "help" s1 = (s1, []) :=
  ⟨rfl, (C10_other_events_frame allFail s1).1 (.click .right 3 4) rfl,
    (C10_other_events_frame allFail s1).2 "help" (by decide) (by decide)⟩

/-- C8: when the bundled tray image fails to decode but the host supplies
a default window icon, the tray icon resolves to that default icon and
`setup` still completes successfully (given the rest of the bootstrap is
healthy) — the decode failure causes no startup failure. -/
theorem C8_tray_icon_fallback (env : SetupEnv) (d : Image)
    (hdec : env.decodedIcon = none)
    (hdef : env.defaultWindowIcon = some d)
    (hok : env.mainPresent = true ∧ env.panelPresent = true ∧
      env.vibrancyMainOk = true ∧ env.vibrancyPanelOk = true ∧
      env.menuQuitOk = true ∧ env.menuShowOk = true ∧
      env.menuBuildOk = true ∧ env.trayBuildOk = true ∧
      env.pluginStoreOk = true ∧ env.pluginFsOk = true ∧
      env.pluginDialogOk = true ∧ env.pluginHttpOk = true ∧
      env.pluginShellOk = true ∧ env.pluginNotifyOk = true) :
    resolveTrayIcon env.decodedIcon env.defaultWindowIcon = some d ∧
      setup env = .ok d allPlugins := by
  obtain ⟨h1, h2, h3, h4, h5, h6, h7, h8, h9, h10, h11, h12, h13, h14⟩ := hok
  constructor
  · simp [resolveTrayIcon, tray_icon, hdec, hdef]
  · simp [setup, buildTrayThenPlugins, registerPlugins, resolveTrayIcon,
      tray_icon, hdec, hdef, h1, h2, h3, h4, h5, h6, h7, h8, h9, h10,
      h11, h12, h13, h14]

theorem C8_tray_icon_fallback_witness :
    (envDecodeFail.decodedIcon = none ∧
      envDecodeFail.defaultWindowIcon = some img0) ∧
      (resolveTrayIcon envDecodeFail.decodedIcon
          envDecodeFail.defaultWindowIcon = some img0 ∧
        setup envDecodeFail = .ok img0 allPlugins) :=
  ⟨⟨rfl, rfl⟩, C8_tray_icon_fallback envDecodeFail img0 rfl rfl
    ⟨rfl, rfl, rfl, rfl, rfl, rfl, rfl, rfl, rfl, rfl, rfl, rfl, rfl, rfl⟩⟩

/-- C9: if the "main" or "panel" window lookup fails, or any of the six
plugin registrations fails, `setup` aborts fatally; and whenever `setup`
completes, all six plugins are registered — no partial success. -/
theorem C9_bootstrap_fail_fast (env : SetupEnv) :
    ((env.mainPresent = false ∨ env.panelPresent = false ∨
        env.pluginStoreOk = false ∨ env.pluginFsOk = false ∨
        env.pluginDialogOk = false ∨ env.pluginHttpOk = false ∨
        env.pluginShellOk = false ∨ env.pluginNotifyOk = false) →
      (setup env).isFatal = true) ∧
    ∀ icon regs, setup env = .ok icon regs → regs = allPlugins := by
  constructor
  · intro h
    cases hout : setup env with
    | fatal msg regs => rfl
    | ok icon regs =>
        obtain ⟨e1, e2, e3, e4, e5, e6, e7, e8, _⟩ :=
          setup_ok_inversion env icon regs hout
        rcases h with h | h | h | h | h | h | h | h <;> simp_all
  · intro icon regs hout
    exact (setup_ok_inversion env icon regs hout).2.2.2.2.2.2.2.2

theorem C9_bootstrap_fail_fast_witness :
    envNoMain.mainPresent = false ∧ (setup envNoMain).isFatal = true :=
  ⟨rfl, (C9_bootstrap_fail_fast envNoMain).1 (Or.inl rfl)⟩
